import Mathlib

/-
Verification of the rent-vs-sell calculator core (calculator.js).

The financial core of the program only uses addition, subtraction,
multiplication, division, `Math.pow` with natural-number exponents,
`Math.max`, and comparisons, so it is embedded shallowly over ℚ.
Month and year counters are natural numbers, exactly as every call site
of the program supplies them (calendar-month counts and `year * 12`).
-/

namespace PyRental

/-- Monthly P&I payment, from `calculateMonthlyPayment` in calculator.js:
if the annual rate is 0 return `principal / (years * 12)`, else
`principal * (monthlyRate * factor) / (factor - 1)` with
`monthlyRate = annualRate / 100 / 12` and `factor = (1 + monthlyRate) ^ (years * 12)`. -/
def calculateMonthlyPayment (principal annualRate : ℚ) (years : ℕ) : ℚ :=
  if annualRate = 0 then
    principal / (years * 12)
  else
    principal * ((annualRate / 100 / 12) * (1 + annualRate / 100 / 12) ^ (years * 12)) /
      ((1 + annualRate / 100 / 12) ^ (years * 12) - 1)

/-- Remaining loan balance, from `calculateRemainingBalance` in calculator.js:
the zero-rate branch returns `principal - (principal / totalMonths) * monthsPaid`
with no clamp; the nonzero-rate branch returns
`max 0 (principal * (factor - paidFactor) / (factor - 1))`. -/
def calculateRemainingBalance (principal monthlyRate : ℚ)
    (totalMonths monthsPaid : ℕ) : ℚ :=
  if monthlyRate = 0 then
    principal - (principal / totalMonths) * monthsPaid
  else
    max 0 (principal * ((1 + monthlyRate) ^ totalMonths - (1 + monthlyRate) ^ monthsPaid) /
      ((1 + monthlyRate) ^ totalMonths - 1))

/-- The validated input snapshot read at the top of `calculate` in calculator.js.
`monthsElapsed` stands for `getMonthsElapsed(loanOriginDate)`: the engine only
consumes that integer, so the date arithmetic is replaced by its result. -/
structure ScenarioInputs where
  purchasePrice : ℚ
  originalLoanAmount : ℚ
  interestRate : ℚ
  mortgageTerm : ℕ
  currentHomeValue : ℚ
  monthlyHOA : ℚ
  monthlyTaxes : ℚ
  monthlyInsurance : ℚ
  monthlyMaintenance : ℚ
  rentalPrice : ℚ
  annualRentIncrease : ℚ
  propertyMgmtFee : ℚ
  rentalTaxRate : ℚ
  homeAppreciation : ℚ
  costInflation : ℚ
  sellingFees : ℚ
  capitalGainsTax : ℚ
  investmentReturn : ℚ
  yearsToHold : ℕ
  isPrimaryResidence : Bool
  monthsElapsed : ℕ
  deriving DecidableEq

/-- One element of the `yearlyData` array pushed by `calculate` in calculator.js.
`monthlyRent` and `monthlyExpenses` are the two fields of `monthlyBreakdown`. -/
structure YearResult where
  year : ℕ
  homeValue : ℚ
  loanBalance : ℚ
  equity : ℚ
  netRentalCashFlow : ℚ
  cumulativeRentalCashFlow : ℚ
  simpleRentalNetWorth : ℚ
  sellingCosts : ℚ
  capitalGainsTaxOwed : ℚ
  netAfterTaxProceeds : ℚ
  sellYear0Total : ℚ
  betterOption : String
  monthlyRent : ℚ
  monthlyExpenses : ℚ
  deriving DecidableEq, Inhabited

/-- The value `monthlyPI` in `calculate`: `updateMonthlyPaymentDisplay` feeds the original
loan amount, interest rate and mortgage term to `calculateMonthlyPayment`. -/
def monthlyPI (inp : ScenarioInputs) : ℚ :=
  calculateMonthlyPayment inp.originalLoanAmount inp.interestRate inp.mortgageTerm

/-- The value `homeValue` in the year loop: `currentHomeValue * (1 + homeAppreciation/100) ^ year`. -/
def homeValue (inp : ScenarioInputs) (year : ℕ) : ℚ :=
  inp.currentHomeValue * (1 + inp.homeAppreciation / 100) ^ year

/-- The value `loanBalance` in the year loop: remaining balance with monthly rate
`interestRate / 100 / 12`, term `mortgageTerm * 12` months, and
`monthsElapsed + year * 12` months paid. -/
def loanBalance (inp : ScenarioInputs) (year : ℕ) : ℚ :=
  calculateRemainingBalance inp.originalLoanAmount (inp.interestRate / 100 / 12)
    (inp.mortgageTerm * 12) (inp.monthsElapsed + year * 12)

/-- The value `currentRent` in the year loop: rent growth is delayed one year, the
exponent is `max 0 (year - 1)`, which is truncated subtraction on ℕ. -/
def currentRent (inp : ScenarioInputs) (year : ℕ) : ℚ :=
  inp.rentalPrice * (1 + inp.annualRentIncrease / 100) ^ (year - 1)

/-- The value `annualRentalIncome` in the year loop. -/
def annualRentalIncome (inp : ScenarioInputs) (year : ℕ) : ℚ :=
  currentRent inp year * 12

/-- The value `annualMgmtFee` in the year loop. -/
def annualMgmtFee (inp : ScenarioInputs) (year : ℕ) : ℚ :=
  annualRentalIncome inp year * (inp.propertyMgmtFee / 100)

/-- The value `inflationFactor` in the year loop. -/
def inflationFactor (inp : ScenarioInputs) (year : ℕ) : ℚ :=
  (1 + inp.costInflation / 100) ^ year

/-- The value `monthlyOwnershipCost` in the year loop: fixed P&I plus the four
inflation-adjusted monthly costs. -/
def monthlyOwnershipCost (inp : ScenarioInputs) (year : ℕ) : ℚ :=
  monthlyPI inp + inp.monthlyTaxes * inflationFactor inp year +
    inp.monthlyInsurance * inflationFactor inp year +
    inp.monthlyHOA * inflationFactor inp year +
    inp.monthlyMaintenance * inflationFactor inp year

/-- The value `annualOwnershipCosts` in the year loop. -/
def annualOwnershipCosts (inp : ScenarioInputs) (year : ℕ) : ℚ :=
  monthlyOwnershipCost inp year * 12

/-- The value `grossRentalProfit` in the year loop. -/
def grossRentalProfit (inp : ScenarioInputs) (year : ℕ) : ℚ :=
  annualRentalIncome inp year - annualMgmtFee inp year - annualOwnershipCosts inp year

/-- The value `rentalTax` in the year loop: profit is taxed only when positive. -/
def rentalTax (inp : ScenarioInputs) (year : ℕ) : ℚ :=
  if grossRentalProfit inp year > 0 then
    grossRentalProfit inp year * (inp.rentalTaxRate / 100)
  else 0

/-- The value `netRentalCashFlow` in the year loop. -/
def netRentalCashFlow (inp : ScenarioInputs) (year : ℕ) : ℚ :=
  grossRentalProfit inp year - rentalTax inp year

/-- The value `yearCashFlow` in the year loop: year 0 is forced to 0. -/
def yearCashFlow (inp : ScenarioInputs) (year : ℕ) : ℚ :=
  if year = 0 then 0 else netRentalCashFlow inp year

/-- The value `sellingCosts` in the year loop. -/
def sellingCosts (inp : ScenarioInputs) (year : ℕ) : ℚ :=
  homeValue inp year * (inp.sellingFees / 100)

/-- The value `netSaleProceeds` in the year loop. -/
def netSaleProceeds (inp : ScenarioInputs) (year : ℕ) : ℚ :=
  homeValue inp year - loanBalance inp year - sellingCosts inp year

/-- The value `capitalGain` in the year loop. -/
def capitalGain (inp : ScenarioInputs) (year : ℕ) : ℚ :=
  homeValue inp year - inp.purchasePrice

/-- The value `capitalGainsTaxOwed` in the year loop: 0 unless the gain is positive;
then 0 if underwater, else the exemption-capped or full gain is taxed. -/
def capitalGainsTaxOwed (inp : ScenarioInputs) (year : ℕ) : ℚ :=
  if capitalGain inp year > 0 then
    if netSaleProceeds inp year < 0 then 0
    else if inp.isPrimaryResidence = true ∧ year ≤ 3 then
      max 0 (capitalGain inp year - 500000) * (inp.capitalGainsTax / 100)
    else capitalGain inp year * (inp.capitalGainsTax / 100)
  else 0

/-- The value `netAfterTaxProceeds` in the year loop. -/
def netAfterTaxProceeds (inp : ScenarioInputs) (year : ℕ) : ℚ :=
  netSaleProceeds inp year - capitalGainsTaxOwed inp year

/-- The update of the running variable `cumulativeRentalCashFlow`. -/
def cumulativeAfter (inp : ScenarioInputs) (cumulativePrev : ℚ) (year : ℕ) : ℚ :=
  cumulativePrev + yearCashFlow inp year

/-- The update of the running variable `sellYear0Baseline`: captured at
year 0, untouched afterwards. -/
def baselineAfter (inp : ScenarioInputs) (baselinePrev : ℚ) (year : ℕ) : ℚ :=
  if year = 0 then netAfterTaxProceeds inp year else baselinePrev

/-- The value `sellYear0Total` in the year loop, as a function of the (already updated)
baseline: grow a positive baseline by the investment return, keep a
non-positive baseline as is. -/
def sellYear0Total (inp : ScenarioInputs) (baseline : ℚ) (year : ℕ) : ℚ :=
  if baseline > 0 then baseline * (1 + inp.investmentReturn / 100) ^ year else baseline

/-- The value `simpleRentalNetWorth` in the year loop, as a function of the (already
updated) cumulative cash flow: proceeds plus cumulative cash flow, except
that a positive year-0 value is reported as 0. -/
def simpleRentalNetWorth (inp : ScenarioInputs) (cumulative : ℚ) (year : ℕ) : ℚ :=
  if year = 0 ∧ netAfterTaxProceeds inp year > 0 then 0
  else netAfterTaxProceeds inp year + cumulative

/-- One iteration of the year loop of `calculate`: the record pushed onto
`yearlyData`, paired with the updated running state
(`cumulativeRentalCashFlow`, `sellYear0Baseline`). -/
def calcYear (inp : ScenarioInputs) (cumulativePrev baselinePrev : ℚ)
    (year : ℕ) : YearResult × ℚ × ℚ :=
  ({ year := year
     homeValue := homeValue inp year
     loanBalance := loanBalance inp year
     equity := homeValue inp year - loanBalance inp year
     netRentalCashFlow := yearCashFlow inp year
     cumulativeRentalCashFlow :=
       if year = 0 then 0 else cumulativeAfter inp cumulativePrev year
     simpleRentalNetWorth :=
       simpleRentalNetWorth inp (cumulativeAfter inp cumulativePrev year) year
     sellingCosts := sellingCosts inp year
     capitalGainsTaxOwed := capitalGainsTaxOwed inp year
     netAfterTaxProceeds := netAfterTaxProceeds inp year
     sellYear0Total := sellYear0Total inp (baselineAfter inp baselinePrev year) year
     betterOption :=
       if simpleRentalNetWorth inp (cumulativeAfter inp cumulativePrev year) year >
           sellYear0Total inp (baselineAfter inp baselinePrev year) year
       then "rent" else "sell"
     monthlyRent := if year = 0 then 0 else currentRent inp year
     monthlyExpenses :=
       if year = 0 then 0
       else monthlyOwnershipCost inp year + annualMgmtFee inp year / 12 },
   cumulativeAfter inp cumulativePrev year, baselineAfter inp baselinePrev year)

/-- The year loop of `calculate`, unrolled as structural recursion on the
number of remaining iterations: `calcFrom inp c b year rem` runs the loop
body for `year, year + 1, ..., year + rem - 1` starting from running state
`(c, b)`. -/
def calcFrom (inp : ScenarioInputs) (cumulative baseline : ℚ) :
    ℕ → ℕ → List YearResult
  | _, 0 => []
  | year, rem + 1 =>
    (calcYear inp cumulative baseline year).1 ::
      calcFrom inp (calcYear inp cumulative baseline year).2.1
        (calcYear inp cumulative baseline year).2.2 (year + 1) rem

/-- The projection engine: the `yearlyData` array built by `calculate` in
calculator.js, looping `year = 0 .. yearsToHold` from the initial state
`cumulativeRentalCashFlow = 0`, `sellYear0Baseline = 0`. -/
def calculate (inp : ScenarioInputs) : List YearResult :=
  calcFrom inp 0 0 0 (inp.yearsToHold + 1)

/-- The value the running variable `sellYear0Baseline` holds from the end of
the year-0 iteration on: that year's net after-tax sale proceeds. -/
def sellYear0Baseline (inp : ScenarioInputs) : ℚ :=
  netAfterTaxProceeds inp 0

section CalcYearProjections

variable (inp : ScenarioInputs) (c b : ℚ) (y : ℕ)

@[simp] lemma calcYear_year : ((calcYear inp c b y).1).year = y := rfl

@[simp] lemma calcYear_homeValue :
    ((calcYear inp c b y).1).homeValue = homeValue inp y := rfl

@[simp] lemma calcYear_loanBalance :
    ((calcYear inp c b y).1).loanBalance = loanBalance inp y := rfl

@[simp] lemma calcYear_equity :
    ((calcYear inp c b y).1).equity = homeValue inp y - loanBalance inp y := rfl

@[simp] lemma calcYear_netRentalCashFlow :
    ((calcYear inp c b y).1).netRentalCashFlow = yearCashFlow inp y := rfl

@[simp] lemma calcYear_cumulativeRentalCashFlow :
    ((calcYear inp c b y).1).cumulativeRentalCashFlow =
      if y = 0 then 0 else cumulativeAfter inp c y := rfl

@[simp] lemma calcYear_simpleRentalNetWorth :
    ((calcYear inp c b y).1).simpleRentalNetWorth =
      simpleRentalNetWorth inp (cumulativeAfter inp c y) y := rfl

@[simp] lemma calcYear_sellingCosts :
    ((calcYear inp c b y).1).sellingCosts = sellingCosts inp y := rfl

@[simp] lemma calcYear_capitalGainsTaxOwed :
    ((calcYear inp c b y).1).capitalGainsTaxOwed = capitalGainsTaxOwed inp y := rfl

@[simp] lemma calcYear_netAfterTaxProceeds :
    ((calcYear inp c b y).1).netAfterTaxProceeds = netAfterTaxProceeds inp y := rfl

@[simp] lemma calcYear_sellYear0Total :
    ((calcYear inp c b y).1).sellYear0Total =
      sellYear0Total inp (baselineAfter inp b y) y := rfl

@[simp] lemma calcYear_betterOption :
    ((calcYear inp c b y).1).betterOption =
      if sellYear0Total inp (baselineAfter inp b y) y <
          simpleRentalNetWorth inp (cumulativeAfter inp c y) y
      then "rent" else "sell" := rfl

@[simp] lemma calcYear_monthlyRent :
    ((calcYear inp c b y).1).monthlyRent =
      if y = 0 then 0 else currentRent inp y := rfl

@[simp] lemma calcYear_monthlyExpenses :
    ((calcYear inp c b y).1).monthlyExpenses =
      if y = 0 then 0
      else monthlyOwnershipCost inp y + annualMgmtFee inp y / 12 := rfl

@[simp] lemma calcYear_state_cumulative :
    (calcYear inp c b y).2.1 = cumulativeAfter inp c y := rfl

@[simp] lemma calcYear_state_baseline :
    (calcYear inp c b y).2.2 = baselineAfter inp b y := rfl

end CalcYearProjections

/-- An in-bounds `getD` lookup is a member of the list. -/
lemma getD_mem_of_lt {α : Type} [Inhabited α] :
    ∀ (l : List α) (i : ℕ), i < l.length → l.getD i default ∈ l := by
  intro l
  induction l with
  | nil => intro i hi; simp at hi
  | cons a t ih =>
    intro i hi
    cases i with
    | zero => simp
    | succ j =>
      rw [List.getD_cons_succ]
      exact List.mem_cons_of_mem _ (ih j (by simpa using hi))

/-- The loop produces one record per remaining iteration. -/
lemma length_calcFrom (inp : ScenarioInputs) (c b : ℚ) (y n : ℕ) :
    (calcFrom inp c b y n).length = n := by
  induction n generalizing c b y with
  | zero => rfl
  | succ n ih => simp [calcFrom, ih]

/-- The record at offset `i` of the loop started at `year = y` carries
year index `y + i`. -/
lemma year_getD_calcFrom (inp : ScenarioInputs) :
    ∀ (n y : ℕ) (c b : ℚ) (i : ℕ), i < n →
      ((calcFrom inp c b y n).getD i default).year = y + i := by
  intro n
  induction n with
  | zero => intro y c b i hi; omega
  | succ n ih =>
    intro y c b i hi
    rw [calcFrom]
    cases i with
    | zero => rfl
    | succ j =>
      rw [List.getD_cons_succ, ih (y + 1) _ _ j (by omega)]
      omega

/-- Every record of the loop is a `calcYear` record, at a year index no
smaller than the starting year. -/
lemma mem_calcFrom {inp : ScenarioInputs} {r : YearResult} :
    ∀ {n y : ℕ} {c b : ℚ}, r ∈ calcFrom inp c b y n →
      ∃ y' c' b', y ≤ y' ∧ r = (calcYear inp c' b' y').1 := by
  intro n
  induction n with
  | zero => intro y c b h; simp [calcFrom] at h
  | succ n ih =>
    intro y c b h
    rw [calcFrom] at h
    rcases List.mem_cons.mp h with h1 | h2
    · exact ⟨y, c, b, le_rfl, h1⟩
    · obtain ⟨y', c', b', hy, hr⟩ := ih h2
      exact ⟨y', c', b', by omega, hr⟩

/-- Once the loop is past year 0 the baseline is threaded through unchanged:
every record of a loop started at `year ≥ 1` with baseline `b` is a
`calcYear` record using baseline `b`, at a year index `≥ 1`. -/
lemma mem_calcFrom_baseline {inp : ScenarioInputs} {r : YearResult} :
    ∀ {n y : ℕ} {c b : ℚ}, 1 ≤ y → r ∈ calcFrom inp c b y n →
      ∃ y' c', 1 ≤ y' ∧ r = (calcYear inp c' b y').1 := by
  intro n
  induction n with
  | zero => intro y c b hy h; simp [calcFrom] at h
  | succ n ih =>
    intro y c b hy h
    rw [calcFrom] at h
    rcases List.mem_cons.mp h with h1 | h2
    · exact ⟨y, c, hy, h1⟩
    · have hy0 : y ≠ 0 := by omega
      have hb : (calcYear inp c b y).2.2 = b := by
        simp [calcYear, baselineAfter, hy0]
      rw [hb] at h2
      exact ih (by omega) h2

/-- Unfolding the first iteration of `calculate`. -/
lemma calculate_eq_cons (inp : ScenarioInputs) :
    calculate inp =
      (calcYear inp 0 0 0).1 ::
        calcFrom inp (calcYear inp 0 0 0).2.1 (calcYear inp 0 0 0).2.2 1
          inp.yearsToHold := rfl

/-- After the year-0 iteration the running cumulative cash flow is still 0
and the captured baseline is the year-0 net after-tax proceeds. -/
lemma calcYear_state_zero (inp : ScenarioInputs) :
    (calcYear inp 0 0 0).2.1 = 0 ∧
    (calcYear inp 0 0 0).2.2 = sellYear0Baseline inp := by
  constructor
  · simp [calcYear, cumulativeAfter, yearCashFlow]
  · simp [calcYear, baselineAfter, sellYear0Baseline]

/-- In a loop started past year 0 with running cumulative `c`, the stored
cumulative cash flow of the record at offset `i` is `c` plus the sum of the
stored per-year cash flows up to and including that record. -/
lemma cumulative_getD_calcFrom (inp : ScenarioInputs) :
    ∀ (n y : ℕ) (c b : ℚ), 1 ≤ y → ∀ i, i < n →
      ((calcFrom inp c b y n).getD i default).cumulativeRentalCashFlow
        = c + (((calcFrom inp c b y n).take (i + 1)).map
            YearResult.netRentalCashFlow).sum := by
  intro n
  induction n with
  | zero => intro y c b hy i hi; omega
  | succ n ih =>
    intro y c b hy i hi
    rw [calcFrom]
    cases i with
    | zero =>
      have hy0 : y ≠ 0 := by omega
      simp [List.take_succ_cons, calcYear, cumulativeAfter, hy0]
    | succ j =>
      rw [List.getD_cons_succ, List.take_succ_cons, List.map_cons, List.sum_cons,
        ih (y + 1) _ _ (by omega) j (by omega)]
      simp [calcYear, cumulativeAfter]
      ring

/-- Every record of `calculate` is a `calcYear` record at its own year index. -/
lemma mem_calculate {inp : ScenarioInputs} {r : YearResult}
    (h : r ∈ calculate inp) :
    ∃ y' c' b', r = (calcYear inp c' b' y').1 := by
  obtain ⟨y', c', b', -, hr⟩ := mem_calcFrom (show r ∈ calcFrom inp 0 0 0 (inp.yearsToHold + 1) from h)
  exact ⟨y', c', b', hr⟩

/-- The only record of `calculate` with year index 0 is the very first one,
produced from the initial running state `(0, 0)`. -/
lemma mem_calculate_year_zero {inp : ScenarioInputs} {r : YearResult}
    (hr : r ∈ calculate inp) (h0 : r.year = 0) :
    r = (calcYear inp 0 0 0).1 := by
  rw [calculate_eq_cons] at hr
  rcases List.mem_cons.mp hr with h | h
  · exact h
  · obtain ⟨y', c', hy', hr'⟩ := mem_calcFrom_baseline le_rfl h
    rw [hr'] at h0
    simp [calcYear] at h0
    omega

/-- A concrete validated scenario (the spec's example scenario, taken at a
zero interest rate so that every quantity is a small rational). -/
def ex : ScenarioInputs :=
  { purchasePrice := 300000
    originalLoanAmount := 240000
    interestRate := 0
    mortgageTerm := 30
    currentHomeValue := 400000
    monthlyHOA := 0
    monthlyTaxes := 0
    monthlyInsurance := 0
    monthlyMaintenance := 0
    rentalPrice := 2000
    annualRentIncrease := 3
    propertyMgmtFee := 10
    rentalTaxRate := 20
    homeAppreciation := 3
    costInflation := 2
    sellingFees := 6
    capitalGainsTax := 15
    investmentReturn := 5
    yearsToHold := 1
    isPrimaryResidence := false
    monthsElapsed := 119 }

/-- C1: the claim states that `calculateRemainingBalance` is floored at 0 for
every monthly rate `r ≥ 0`, including `r = 0` and `monthsPaid > totalMonths`.
The code violates this: the zero-rate branch has no clamp, so at principal
120, rate 0, 12 total months and 24 months paid it returns −120, a negative
balance. The spec states the intended flooring explicitly, and the nonzero
branch of the same function does clamp, so this is a slip in the code. -/
theorem C1_zero_rate_balance_negative :
    calculateRemainingBalance 120 0 12 24 = -120 ∧
    calculateRemainingBalance 120 0 12 24 < 0 := by
  constructor <;> norm_num [calculateRemainingBalance]

/-- C7: for every principal `P ≥ 0`, annual rate `r ∈ [0, 30]` and term
`t ≥ 1`, the monthly payment is non-negative; at `r = 0` it equals exactly
`P / (t * 12)` (no division by zero); and at `P = 0` it returns 0. -/
theorem C7_monthly_payment (P r : ℚ) (t : ℕ)
    (hP : 0 ≤ P) (hr : 0 ≤ r) (hr30 : r ≤ 30) (ht : 1 ≤ t) :
    0 ≤ calculateMonthlyPayment P r t ∧
    (r = 0 → calculateMonthlyPayment P r t = P / (t * 12)) ∧
    calculateMonthlyPayment 0 r t = 0 := by
  refine ⟨?_, ?_, ?_⟩
  · unfold calculateMonthlyPayment
    split_ifs with h0
    · have ht0 : (0 : ℚ) ≤ (t : ℚ) * 12 := by positivity
      exact div_nonneg hP ht0
    · have hrpos : 0 < r := lt_of_le_of_ne hr (Ne.symm h0)
      have hmr : 0 < r / 100 / 12 := by positivity
      have hfac : 1 < (1 + r / 100 / 12) ^ (t * 12) :=
        one_lt_pow₀ (by linarith) (by omega)
      have hden : 0 < (1 + r / 100 / 12) ^ (t * 12) - 1 := by linarith
      have hnum : 0 ≤ P * ((r / 100 / 12) * (1 + r / 100 / 12) ^ (t * 12)) := by
        have : 0 < (1 + r / 100 / 12) ^ (t * 12) := by linarith
        have := mul_nonneg (le_of_lt hmr) (le_of_lt this)
        exact mul_nonneg hP this
      exact div_nonneg hnum (le_of_lt hden)
  · intro h0
    simp [calculateMonthlyPayment, h0]
  · unfold calculateMonthlyPayment
    split_ifs <;> simp

/-- Witness for C7 at `P = 1200`, `r = 0`, `t = 10`. -/
theorem C7_monthly_payment_witness :
    calculateMonthlyPayment 1200 0 10 = 1200 / ((10 : ℕ) * 12) :=
  (C7_monthly_payment 1200 0 10 (by norm_num) le_rfl (by norm_num)
    (by norm_num)).2.1 rfl

/-- C8: for every principal `P ≥ 0`, monthly rate `r ≥ 0` and total months
`n ≥ 1`, the remaining balance is non-increasing in the number of months
paid, and equals exactly `P` when no months have been paid. -/
theorem C8_remaining_balance_monotone (P r : ℚ) (n m m' : ℕ)
    (hP : 0 ≤ P) (hr : 0 ≤ r) (hn : 1 ≤ n) (hmm : m ≤ m') :
    calculateRemainingBalance P r n m' ≤ calculateRemainingBalance P r n m ∧
    calculateRemainingBalance P r n 0 = P := by
  unfold calculateRemainingBalance
  split_ifs with h0
  · constructor
    · have hcast : (m : ℚ) ≤ (m' : ℚ) := by exact_mod_cast hmm
      have hPn : 0 ≤ P / (n : ℚ) := div_nonneg hP (by positivity)
      have := mul_le_mul_of_nonneg_left hcast hPn
      linarith
    · simp
  · have hrpos : 0 < r := lt_of_le_of_ne hr (Ne.symm h0)
    have hfac : 1 < (1 + r) ^ n := one_lt_pow₀ (by linarith) (by omega)
    have hden : 0 < (1 + r) ^ n - 1 := by linarith
    constructor
    · have hpow : (1 + r) ^ m ≤ (1 + r) ^ m' :=
        pow_le_pow_right₀ (by linarith) hmm
      refine max_le_max le_rfl ?_
      refine (div_le_div_iff_of_pos_right hden).mpr ?_
      exact mul_le_mul_of_nonneg_left (by linarith) hP
    · rw [pow_zero, mul_div_assoc, div_self (ne_of_gt hden), mul_one,
        max_eq_right hP]

/-- Witness for C8 at `P = 100`, `r = 1`, `n = 12`, `m = 3 ≤ m' = 5`. -/
theorem C8_remaining_balance_monotone_witness :
    calculateRemainingBalance 100 1 12 0 = 100 :=
  (C8_remaining_balance_monotone 100 1 12 3 5 (by norm_num) (by norm_num)
    (by norm_num) (by norm_num)).2

/-- C9: for every scenario with `yearsToHold = N`, `1 ≤ N ≤ 30`, the
projection produces exactly `N + 1` records whose year fields are
`0, 1, ..., N` in insertion order. -/
theorem C9_projection_shape (inp : ScenarioInputs)
    (h1 : 1 ≤ inp.yearsToHold) (h30 : inp.yearsToHold ≤ 30) :
    (calculate inp).length = inp.yearsToHold + 1 ∧
    ∀ i, i < (calculate inp).length →
      ((calculate inp).getD i default).year = i := by
  constructor
  · exact length_calcFrom inp 0 0 0 (inp.yearsToHold + 1)
  · intro i hi
    have hlen : (calculate inp).length = inp.yearsToHold + 1 :=
      length_calcFrom inp 0 0 0 (inp.yearsToHold + 1)
    have h := year_getD_calcFrom inp (inp.yearsToHold + 1) 0 0 0 i (by omega)
    simpa using h

/-- Witness for C9 at the concrete scenario `ex` (`yearsToHold = 1`). -/
theorem C9_projection_shape_witness :
    (calculate ex).length = ex.yearsToHold + 1 :=
  (C9_projection_shape ex (by decide) (by decide)).1

/-- C2: for every record of the projection, the better-option tag is the
code's string for the hold scenario (`"rent"`, the spec's `hold` tag)
exactly when the combined hold net worth strictly exceeds the sell
trajectory value, and is `"sell"` otherwise, so ties favor sell. -/
theorem C2_better_option_tag (inp : ScenarioInputs) (r : YearResult)
    (hr : r ∈ calculate inp) :
    (r.betterOption = "rent" ↔ r.sellYear0Total < r.simpleRentalNetWorth) ∧
    (r.simpleRentalNetWorth ≤ r.sellYear0Total → r.betterOption = "sell") := by
  obtain ⟨y', c', b', rfl⟩ := mem_calculate hr
  by_cases h : sellYear0Total inp (baselineAfter inp b' y') y' <
      simpleRentalNetWorth inp (cumulativeAfter inp c' y') y'
  · refine ⟨by simp [h], fun hle => absurd h (not_lt.mpr (by simpa using hle))⟩
  · refine ⟨by simp [h], fun _ => by simp [h]⟩

/-- Witness for C2 at the first record of the concrete scenario `ex`. -/
theorem C2_better_option_tag_witness :
    (((calculate ex).getD 0 default).betterOption = "rent" ↔
      ((calculate ex).getD 0 default).sellYear0Total <
        ((calculate ex).getD 0 default).simpleRentalNetWorth) ∧
    (((calculate ex).getD 0 default).simpleRentalNetWorth ≤
        ((calculate ex).getD 0 default).sellYear0Total →
      ((calculate ex).getD 0 default).betterOption = "sell") :=
  C2_better_option_tag ex ((calculate ex).getD 0 default)
    (getD_mem_of_lt (calculate ex) 0 (by decide))

/-- C3: for every record of the projection, the capital-gains tax owed
follows the four-branch rule: zero gain or a loss is untaxed, an underwater
sale is untaxed regardless of gain, a primary residence in years 0–3 is
taxed on the gain beyond the 500000 exemption, and otherwise the full gain
is taxed at `capitalGainsTax` percent. -/
theorem C3_capital_gains_tax_rule (inp : ScenarioInputs) (r : YearResult)
    (hr : r ∈ calculate inp) :
    r.capitalGainsTaxOwed =
      if r.homeValue - inp.purchasePrice ≤ 0 then 0
      else if r.homeValue - r.loanBalance - r.sellingCosts < 0 then 0
      else if inp.isPrimaryResidence = true ∧ r.year ≤ 3 then
        max 0 (r.homeValue - inp.purchasePrice - 500000) *
          (inp.capitalGainsTax / 100)
      else (r.homeValue - inp.purchasePrice) * (inp.capitalGainsTax / 100) := by
  obtain ⟨y', c', b', rfl⟩ := mem_calculate hr
  simp only [calcYear_capitalGainsTaxOwed, calcYear_homeValue,
    calcYear_loanBalance, calcYear_sellingCosts, calcYear_year]
  simp only [capitalGainsTaxOwed, capitalGain, netSaleProceeds]
  rcases le_or_lt (homeValue inp y' - inp.purchasePrice) 0 with hg | hg
  · rw [if_neg (not_lt.mpr hg), if_pos hg]
  · rw [if_pos hg, if_neg (not_le.mpr hg)]

/-- Witness for C3 at the first record of the concrete scenario `ex`. -/
theorem C3_capital_gains_tax_rule_witness :
    ((calculate ex).getD 0 default).capitalGainsTaxOwed =
      if ((calculate ex).getD 0 default).homeValue - ex.purchasePrice ≤ 0 then 0
      else if ((calculate ex).getD 0 default).homeValue -
          ((calculate ex).getD 0 default).loanBalance -
          ((calculate ex).getD 0 default).sellingCosts < 0 then 0
      else if ex.isPrimaryResidence = true ∧
          ((calculate ex).getD 0 default).year ≤ 3 then
        max 0 (((calculate ex).getD 0 default).homeValue - ex.purchasePrice -
            500000) * (ex.capitalGainsTax / 100)
      else (((calculate ex).getD 0 default).homeValue - ex.purchasePrice) *
        (ex.capitalGainsTax / 100) :=
  C3_capital_gains_tax_rule ex ((calculate ex).getD 0 default)
    (getD_mem_of_lt (calculate ex) 0 (by decide))

/-- C10: every record of the projection has a monthly breakdown reporting
rent 0 and expenses 0 at year 0, and, from year 1 on, that year's monthly
rent and that year's monthly ownership cost plus one-twelfth of the annual
management fee. -/
theorem C10_monthly_breakdown (inp : ScenarioInputs) (r : YearResult)
    (hr : r ∈ calculate inp) :
    (r.year = 0 → r.monthlyRent = 0 ∧ r.monthlyExpenses = 0) ∧
    (1 ≤ r.year →
      r.monthlyRent = currentRent inp r.year ∧
      r.monthlyExpenses = monthlyOwnershipCost inp r.year +
        annualMgmtFee inp r.year / 12) := by
  obtain ⟨y', c', b', rfl⟩ := mem_calculate hr
  constructor
  · intro h0
    simp only [calcYear_year] at h0
    subst h0
    simp
  · intro h1
    simp only [calcYear_year] at h1
    have hy0 : y' ≠ 0 := by omega
    simp [hy0]

/-- Witness for C10 at the year-1 record of the concrete scenario `ex`. -/
theorem C10_monthly_breakdown_witness :
    (((calculate ex).getD 1 default).year = 0 →
      ((calculate ex).getD 1 default).monthlyRent = 0 ∧
      ((calculate ex).getD 1 default).monthlyExpenses = 0) ∧
    (1 ≤ ((calculate ex).getD 1 default).year →
      ((calculate ex).getD 1 default).monthlyRent =
        currentRent ex ((calculate ex).getD 1 default).year ∧
      ((calculate ex).getD 1 default).monthlyExpenses =
        monthlyOwnershipCost ex ((calculate ex).getD 1 default).year +
          annualMgmtFee ex ((calculate ex).getD 1 default).year / 12) :=
  C10_monthly_breakdown ex ((calculate ex).getD 1 default)
    (getD_mem_of_lt (calculate ex) 1 (by decide))

/-- C5: every record's sell trajectory value is the captured year-0 baseline
grown by the investment return when that baseline is positive, and the
unchanged baseline otherwise; in particular a negative year-0 net after-tax
proceeds makes the sell trajectory the same constant at every year. -/
theorem C5_sell_trajectory (inp : ScenarioInputs) :
    (∀ r ∈ calculate inp,
        r.sellYear0Total =
          if 0 < sellYear0Baseline inp then
            sellYear0Baseline inp * (1 + inp.investmentReturn / 100) ^ r.year
          else sellYear0Baseline inp) ∧
    (sellYear0Baseline inp < 0 →
      ∀ r ∈ calculate inp, r.sellYear0Total = sellYear0Baseline inp) := by
  have key : ∀ r ∈ calculate inp,
      r.sellYear0Total =
        if 0 < sellYear0Baseline inp then
          sellYear0Baseline inp * (1 + inp.investmentReturn / 100) ^ r.year
        else sellYear0Baseline inp := by
    intro r hr
    rw [calculate_eq_cons] at hr
    rcases List.mem_cons.mp hr with h | h
    · subst h
      simp [sellYear0Total, baselineAfter, sellYear0Baseline]
    · rw [(calcYear_state_zero inp).2] at h
      obtain ⟨y', c', hy', rfl⟩ := mem_calcFrom_baseline le_rfl h
      have hy0 : y' ≠ 0 := by omega
      simp [sellYear0Total, baselineAfter, hy0]
  refine ⟨key, fun hneg r hr => ?_⟩
  rw [key r hr, if_neg (by linarith)]

/-- Witness for C5 at the year-0 record of the concrete scenario `ex`. -/
theorem C5_sell_trajectory_witness :
    ((calculate ex).getD 0 default).sellYear0Total =
      if 0 < sellYear0Baseline ex then
        sellYear0Baseline ex * (1 + ex.investmentReturn / 100) ^
          ((calculate ex).getD 0 default).year
      else sellYear0Baseline ex :=
  (C5_sell_trajectory ex).1 ((calculate ex).getD 0 default)
    (getD_mem_of_lt (calculate ex) 0 (by decide))

/-- C4: from year 1 on, the combined hold net worth is the net after-tax
sale proceeds plus the cumulative rental cash flow through that year; at
year 0 a strictly positive net after-tax proceeds is reported as 0 while a
negative one is reported as its actual value. -/
theorem C4_combined_hold_net_worth (inp : ScenarioInputs) :
    (∀ r ∈ calculate inp, 1 ≤ r.year →
        r.simpleRentalNetWorth =
          r.netAfterTaxProceeds + r.cumulativeRentalCashFlow) ∧
    (∀ r ∈ calculate inp, r.year = 0 →
        (0 < r.netAfterTaxProceeds → r.simpleRentalNetWorth = 0) ∧
        (r.netAfterTaxProceeds < 0 →
          r.simpleRentalNetWorth = r.netAfterTaxProceeds)) := by
  constructor
  · intro r hr h1
    obtain ⟨y', c', b', rfl⟩ := mem_calculate hr
    simp only [calcYear_year] at h1
    have hy0 : y' ≠ 0 := by omega
    simp [simpleRentalNetWorth, hy0]
  · intro r hr h0
    have hr0 := mem_calculate_year_zero hr h0
    subst hr0
    constructor
    · intro hpos
      simp only [calcYear_netAfterTaxProceeds] at hpos
      simp [simpleRentalNetWorth, hpos]
    · intro hneg
      simp only [calcYear_netAfterTaxProceeds] at hneg
      simp [simpleRentalNetWorth, cumulativeAfter, yearCashFlow,
        not_lt.mpr hneg.le]

/-- Witness for C4 at the year-1 record of the concrete scenario `ex`. -/
theorem C4_combined_hold_net_worth_witness :
    ((calculate ex).getD 1 default).simpleRentalNetWorth =
      ((calculate ex).getD 1 default).netAfterTaxProceeds +
        ((calculate ex).getD 1 default).cumulativeRentalCashFlow :=
  (C4_combined_hold_net_worth ex).1 ((calculate ex).getD 1 default)
    (getD_mem_of_lt (calculate ex) 1 (by decide)) (by decide)

/-- C6: the year-0 record reports net rental cash flow 0 and cumulative
rental cash flow 0, and every record's cumulative rental cash flow is the
sum of the reported per-year cash flows up to and including it — year 0
always contributing 0, so only years ≥ 1 accumulate. -/
theorem C6_year_zero_cash_flow (inp : ScenarioInputs) :
    (∀ r ∈ calculate inp, r.year = 0 →
        r.netRentalCashFlow = 0 ∧ r.cumulativeRentalCashFlow = 0) ∧
    (∀ i, i < (calculate inp).length →
        ((calculate inp).getD i default).cumulativeRentalCashFlow =
          (((calculate inp).take (i + 1)).map
            YearResult.netRentalCashFlow).sum) := by
  constructor
  · intro r hr h0
    obtain ⟨y', c', b', rfl⟩ := mem_calculate hr
    simp only [calcYear_year] at h0
    subst h0
    simp [yearCashFlow]
  · intro i hi
    have hlen : (calculate inp).length = inp.yearsToHold + 1 :=
      length_calcFrom inp 0 0 0 (inp.yearsToHold + 1)
    rw [calculate_eq_cons]
    cases i with
    | zero =>
      simp [List.take_succ_cons, yearCashFlow]
    | succ j =>
      rw [List.getD_cons_succ, List.take_succ_cons, List.map_cons,
        List.sum_cons, (calcYear_state_zero inp).1]
      have hj : j < inp.yearsToHold := by omega
      rw [cumulative_getD_calcFrom inp inp.yearsToHold 1 0
        ((calcYear inp 0 0 0).2.2) le_rfl j hj]
      simp [yearCashFlow]

/-- Witness for C6 at index 1 of the concrete scenario `ex`. -/
theorem C6_year_zero_cash_flow_witness :
    ((calculate ex).getD 1 default).cumulativeRentalCashFlow =
      (((calculate ex).take 2).map YearResult.netRentalCashFlow).sum :=
  (C6_year_zero_cash_flow ex).2 1 (by decide)

end PyRental
